import Mathlib

/-!
Shallow embedding of the MauroDataCollector import pipeline
(`ImportEntityProperties.py` and `MauroAPIInterface.py`) and proofs about it.

Dictionaries (`dict`) are modelled as functions `String → Option V`
(`none` = key absent, mirroring Python `KeyError` on access of an absent key).
Cell values after null-coercion are `Option String` (`none` = Python `None`).
`sys.exit` (via `crit_and_die` / `err_and_die`) and uncaught Python exceptions
are modelled by the `Fatal` error type: any `Fatal` terminates the whole
process, exactly as `sys.exit` or an uncaught exception does.
-/

/-- Python exceptions that the embedded code can raise. -/
inductive PyExc where
  | valueError (msg : String)
  | typeError (msg : String)
  | keyError (key : String)
deriving DecidableEq

/-- Process-terminating events: `crit_and_die` / `err_and_die` (both call
`sys.exit`, `ImportEntityProperties.py` lines 158-167) and uncaught exceptions. -/
inductive Fatal where
  | crit_and_die (msg : String)
  | err_and_die (msg : String)
  | uncaught (e : PyExc)
deriving DecidableEq

/-- Embeds Python `str.upper` by uppercasing each character. -/
def py_upper (s : String) : String :=
  String.mk (s.data.map Char.toUpper)

/-- Embeds `make_null` (`ImportEntityProperties.py` lines 198-202):
`v.upper() == 'NULL' or v == ''` maps to `None`, everything else passes through. -/
def make_null (v : String) : Option String :=
  if py_upper v = "NULL" ∨ v = "" then none else some v

/-- Embeds the accumulator loop inside `list_duplicates`: an element joins
`seen_twice` iff it is already in `seen` when reached. -/
def list_duplicates_aux (seen : List String) : List String → List String
  | [] => []
  | x :: xs =>
      if x ∈ seen then x :: list_duplicates_aux seen xs
      else list_duplicates_aux (seen ++ [x]) xs

/-- Embeds `list_duplicates` (`ImportEntityProperties.py` lines 189-196). -/
def list_duplicates (list_to_parse : List String) : List String :=
  list_duplicates_aux [] list_to_parse

/-- Embeds `dict(zip(headers, incoming_row))` (line 322): for duplicate keys the
last pair wins, and `zip` stops at the shorter list. -/
def dict_zip (ks vs : List String) : String → Option String :=
  fun k => (((ks.zip vs).filter (fun p => p.1 = k)).map (fun p => p.2)).getLast?

/-- Embeds `dict((k, make_null(v)) for k, v in row_dict.items())` (line 326). -/
def null_values (d : String → Option String) : String → Option (Option String) :=
  fun k => (d k).map make_null

/-- Embeds the Python dict union `row_dict | override_dict` (line 331): keys of
the right operand win; override values are plain strings (never `None`). -/
def dict_union (d : String → Option (Option String)) (ov : String → Option String) :
    String → Option (Option String) :=
  fun k =>
    match ov k with
    | some v => some (some v)
    | none => d k

/-- The four command-line override options `-d -s -t -f`
(`args.db`, `args.schema`, `args.table`, `args.field`). -/
structure Args where
  db : Option String
  schema : Option String
  table : Option String
  field : Option String
deriving DecidableEq

/-- Embeds the construction of `override_dict` (lines 276-291): an entry exists
for a hierarchy key exactly when the corresponding argument `is not None`. -/
def override_dict (a : Args) : String → Option String :=
  fun k =>
    if k = "db" then a.db
    else if k = "schema" then a.schema
    else if k = "table" then a.table
    else if k = "field" then a.field
    else none

/-- Python truthiness of an optional string argument (`args.db` in a boolean
context, line 264): `None` and the empty string are falsy. -/
def truthy (o : Option String) : Bool :=
  match o with
  | none => false
  | some s => s ≠ ""

/-- Dictionary key access `d[k]`: raises `KeyError` when the key is absent. -/
def get_key (d : String → Option (Option String)) (k : String) :
    Except Fatal (Option String) :=
  match d k with
  | some v => Except.ok v
  | none => Except.error (Fatal.uncaught (PyExc.keyError k))

/-- Embeds the `path_string` construction (lines 341-351).  The source reads
`row_dict['db']` in the guard; under the `db`-present branch it reads
`row_dict['schema']`, `row_dict['table']` and `row_dict['field']`
unconditionally (each guard tests the value against `None`, not key
membership, so an absent key raises `KeyError`). -/
def path_string (rd : String → Option (Option String)) : Except Fatal String :=
  match rd "db" with
  | none => Except.error (Fatal.uncaught (PyExc.keyError "db"))
  | some none => Except.error (Fatal.crit_and_die "Essential variable db not provided.")
  | some (some dbv) =>
    match rd "schema" with
    | none => Except.error (Fatal.uncaught (PyExc.keyError "schema"))
    | some sch =>
      match rd "table" with
      | none => Except.error (Fatal.uncaught (PyExc.keyError "table"))
      | some tb =>
        match rd "field" with
        | none => Except.error (Fatal.uncaught (PyExc.keyError "field"))
        | some fd =>
          Except.ok ((("dm:" ++ dbv
            ++ (match sch with | some v => "|dc:" ++ v | none => ""))
            ++ (match tb with | some v => "|dc:" ++ v | none => ""))
            ++ (match fd with | some v => "|de:" ++ v | none => ""))

/-- Embeds the body of the per-row loop up to path construction
(lines 312-353): field-count check, `dict(zip(...))`, null coercion, override
union, the four debug key accesses of lines 336-339, then `path_string`. -/
def process_row (headers : List String) (ov : String → Option String)
    (row : List String) : Except Fatal String :=
  if headers.length ≠ row.length then
    Except.error (Fatal.crit_and_die "Row item count did not match header count.")
  else
    let rd := dict_union (null_values (dict_zip headers row)) ov
    match get_key rd "db" with
    | Except.error e => Except.error e
    | Except.ok _ =>
      match get_key rd "schema" with
      | Except.error e => Except.error e
      | Except.ok _ =>
        match get_key rd "table" with
        | Except.error e => Except.error e
        | Except.ok _ =>
          match get_key rd "field" with
          | Except.error e => Except.error e
          | Except.ok _ => path_string rd

/-- Convenience: the empty override set (no `-d -s -t -f` given). -/
def no_args : Args := ⟨none, none, none, none⟩

/-- Splits a character list at every occurrence of the separator character. -/
def split_char (c : Char) : List Char → List (List Char)
  | [] => [[]]
  | x :: xs =>
    match split_char c xs with
    | [] => [[x]]
    | seg :: rest => if x = c then [] :: seg :: rest else (x :: seg) :: rest

/-- True iff some `|`-separated segment of the serialized path starts with the
given role tag. -/
def path_has_tag (p tag : String) : Bool :=
  (split_char (Char.ofNat 124) p.data).any (fun seg => tag.data.isPrefixOf seg)

/-- A dynamically typed Python value passed where the interface expects a
string: the orchestrator (line 300) passes the module logger object as the
first positional argument of `MauroAPIInterface`. -/
inductive PyVal where
  | str (s : String)
  | loggerObj
deriving DecidableEq

/-- List-based suffix test (regex `x$` on a concrete string). -/
def ends_with (s suf : String) : Bool :=
  suf.data.isSuffixOf s.data

/-- Drops the last `n` characters of a string. -/
def drop_right (s : String) (n : Nat) : String :=
  String.mk (s.data.take (s.data.length - n))

/-- Strips the `https?://` scheme required by the URL pattern, if present. -/
def strip_scheme (s : String) : Option String :=
  if "https://".data.isPrefixOf s.data then some (String.mk (s.data.drop 8))
  else if "http://".data.isPrefixOf s.data then some (String.mk (s.data.drop 7))
  else none

/-- Matching of the URL regex against a whole string (no `$`-before-newline
allowance): `https?` scheme, then any characters other than a newline
(regex `.` excludes the newline), then `/api` with an optional trailing `/`. -/
def url_core_match (s : String) : Bool :=
  match strip_scheme s with
  | none => false
  | some rest =>
      (ends_with rest "/api" && !((drop_right rest 4).data.contains (Char.ofNat 10)))
      || (ends_with rest "/api/" && !((drop_right rest 5).data.contains (Char.ofNat 10)))

/-- Embeds `is_good_api_url` (`MauroAPIInterface.py` lines 23-29): Python
`re.match` of the anchored pattern; `$` also matches just before a single
trailing newline. -/
def is_good_api_url (url : String) : Bool :=
  url_core_match url || (ends_with url "\n" && url_core_match (drop_right url 1))

/-- A hexadecimal digit as matched by `[0-9a-f]` under `re.IGNORECASE`. -/
def is_hex_char (c : Char) : Bool :=
  c.isDigit || (Char.ofNat 97 ≤ c && c ≤ Char.ofNat 102)
    || (Char.ofNat 65 ≤ c && c ≤ Char.ofNat 70)

/-- Matching of the key regex against a whole string: five dash-separated
hexadecimal groups of sizes 8-4-4-4-12 (a canonical UUID). -/
def key_core_match (s : String) : Bool :=
  s.data.length = 36 &&
    (List.range 36).all (fun i =>
      if i = 8 ∨ i = 13 ∨ i = 18 ∨ i = 23 then s.data.getD i (Char.ofNat 32) = Char.ofNat 45
      else is_hex_char (s.data.getD i (Char.ofNat 32)))

/-- Embeds `is_good_api_key` (`MauroAPIInterface.py` lines 42-48), with the
same `$`-before-trailing-newline allowance of Python `re.match`. -/
def is_good_api_key (key : String) : Bool :=
  key_core_match key || (ends_with key "\n" && key_core_match (drop_right key 1))

/-- The state of a constructed `MauroAPIInterface` object (the header fields
are irrelevant to the claims and omitted). -/
structure MauroAPIInterface where
  api_base_url : Option PyVal
  api_key : Option PyVal
deriving DecidableEq

/-- Embeds the `api_base_url` setter (`MauroAPIInterface.py` lines 16-21):
`None` is accepted; a string is pattern-checked and rejected with `ValueError`
on mismatch; a non-string (the logger object) makes `re.match` raise
`TypeError`. -/
def set_api_base_url (value : Option PyVal) : Except PyExc (Option PyVal) :=
  match value with
  | none => Except.ok none
  | some (PyVal.str s) =>
      if is_good_api_url s then Except.ok (some (PyVal.str s))
      else Except.error (PyExc.valueError "Given API URL appears to be bad.")
  | some PyVal.loggerObj =>
      Except.error (PyExc.typeError "expected string or bytes-like object")

/-- Embeds the `api_key` setter (`MauroAPIInterface.py` lines 34-40), with the
same `None` / pattern-check / `TypeError` behaviour as the URL setter. -/
def set_api_key_value (value : Option PyVal) : Except PyExc (Option PyVal) :=
  match value with
  | none => Except.ok none
  | some (PyVal.str s) =>
      if is_good_api_key s then Except.ok (some (PyVal.str s))
      else Except.error (PyExc.valueError "Given API key appears to be bad.")
  | some PyVal.loggerObj =>
      Except.error (PyExc.typeError "expected string or bytes-like object")

/-- Embeds `MauroAPIInterface.__init__` (lines 6-11): assigns `api_base_url`
first, then `api_key`, each through its validating setter. -/
def mk_MauroAPIInterface (api_base_url api_key : Option PyVal) :
    Except PyExc MauroAPIInterface :=
  match set_api_base_url api_base_url with
  | Except.error e => Except.error e
  | Except.ok u =>
    match set_api_key_value api_key with
    | Except.error e => Except.error e
    | Except.ok k => Except.ok ⟨u, k⟩

/-- The configuration the orchestrator receives: required `--mauro-url` and
`--mauro-api-key` strings plus the optional hierarchy overrides. -/
structure Config where
  mauro_url : String
  mauro_api_key : String
  args : Args
deriving DecidableEq

/-- Embeds the client-construction step of the orchestrator
(`ImportEntityProperties.py` lines 297-309): the call
`MauroAPIInterface(logger, api_base_url)` binds the logger object to
`api_base_url` and the URL string to `api_key`; a `ValueError` is routed
through `err_and_die`, any other exception propagates uncaught; on success the
key is assigned through the `api_key` setter with the same handling. -/
def construct_client_step (cfg : Config) : Except Fatal MauroAPIInterface :=
  match mk_MauroAPIInterface (some PyVal.loggerObj) (some (PyVal.str cfg.mauro_url)) with
  | Except.error (PyExc.valueError _) =>
      Except.error (Fatal.err_and_die "Could not create Mauro API interface")
  | Except.error e => Except.error (Fatal.uncaught e)
  | Except.ok mapi =>
    match set_api_key_value (some (PyVal.str cfg.mauro_api_key)) with
    | Except.error (PyExc.valueError _) =>
        Except.error (Fatal.err_and_die "Given API key appears to be bad. It should look like a UUID.")
    | Except.error e => Except.error (Fatal.uncaught e)
    | Except.ok k => Except.ok { mapi with api_key := k }

/-- The dictionary returned by the path lookup, as documented at
`ImportEntityProperties.py` lines 355-360 (the `r` response object is
irrelevant to the dispatch and omitted). -/
structure SearchResult where
  status_code : Nat
  url_found : Bool
  model_finalised : Bool
  id_based_url : String
deriving DecidableEq

/-- The five classifications of a path lookup (spec section 3). -/
inductive LookupOutcome where
  | NotFound
  | Ambiguous
  | ResolvedDraft (ref : String)
  | ResolvedFinalised (ref : String)
  | TransportError (code : Nat)
deriving DecidableEq

/-- Embeds the dispatch on `search_dict` (`ImportEntityProperties.py`
lines 366-393): `404`; `200` with `url_found` and draft or finalised model;
`200` without `url_found`; any other status. -/
def classify_search (s : SearchResult) : LookupOutcome :=
  if s.status_code = 404 then LookupOutcome.NotFound
  else if s.status_code = 200 then
    if s.url_found = true then
      if s.model_finalised = false then LookupOutcome.ResolvedDraft s.id_based_url
      else LookupOutcome.ResolvedFinalised s.id_based_url
    else LookupOutcome.Ambiguous
  else LookupOutcome.TransportError s.status_code

/-- The terminal actions of the Entity Resolver (spec section 4.4). -/
inductive TerminalAction where
  | SkipWithWarning (msg : String)
  | UpdateInPlace (ref : String)
  | CreateBranchThenUpdate (ref : String)
  | SkipWithError (code : Nat)
deriving DecidableEq

/-- Modelled from the spec: the Entity Resolver's terminal actions (spec
section 4.4).  In `ImportEntityProperties.py` the draft and finalised branches
of the dispatch (lines 376-381) carry only comments and debug logging; the
write actions themselves are not implemented in the available source, so the
draft and finalised actions are taken from the spec's words. -/
def resolver_action : LookupOutcome → TerminalAction
  | LookupOutcome.NotFound => TerminalAction.SkipWithWarning "entity not found"
  | LookupOutcome.Ambiguous => TerminalAction.SkipWithWarning "ambiguous match"
  | LookupOutcome.ResolvedDraft ref => TerminalAction.UpdateInPlace ref
  | LookupOutcome.ResolvedFinalised ref => TerminalAction.CreateBranchThenUpdate ref
  | LookupOutcome.TransportError code => TerminalAction.SkipWithError code

/-- Observable events of a run, used to state ordering properties. -/
inductive Event where
  | openFile (name : String)
  | clientConstruct
  | rowProcessed (index : Nat) (outcome : LookupOutcome)
deriving DecidableEq

/-- Embeds the `for incoming_row in incoming_rows` loop (lines 312-393): each
row is normalized and resolved; every lookup outcome is only logged (no write
is issued), so the loop continues except on a `Fatal`, which ends the process.
`lookup` stands for `mapi.find_id_based_url_by_path`; that method is absent
from the available `MauroAPIInterface.py` source, so its result is left
abstract (modelled from the documented return dictionary). -/
def row_loop (lookup : String → SearchResult) (headers : List String)
    (ov : String → Option String) : List (List String) → Nat → List Event × Option Fatal
  | [], _ => ([], none)
  | r :: rs, i =>
    match process_row headers ov r with
    | Except.error e => ([], some e)
    | Except.ok p =>
      match row_loop lookup headers ov rs (i + 1) with
      | (evs, res) => (Event.rowProcessed i (classify_search (lookup p)) :: evs, res)

/-- One parsed input file: name, header row, and the remaining data rows. -/
structure CSVFile where
  name : String
  headers : List String
  rows : List (List String)
deriving DecidableEq

/-- Embeds the body of the `for target_filename in files_to_process` loop
(`ImportEntityProperties.py` lines 229-393), in source order: open and read
the file, check for duplicate headers, check the essential `db` / `table` /
`field` headers (header present or a truthy override), construct the API
client and set the key, then process the rows.  Every `crit_and_die` /
`err_and_die` / uncaught exception is a `Fatal` that ends the process. -/
def process_file (lookup : String → SearchResult) (cfg : Config) (f : CSVFile) :
    List Event × Option Fatal :=
  if 0 < (list_duplicates f.headers).length then
    ([Event.openFile f.name],
      some (Fatal.crit_and_die "Duplicate vaules found in incoming file header row. Consider namespacing."))
  else if !(f.headers.contains "db" || truthy cfg.args.db) then
    ([Event.openFile f.name],
      some (Fatal.crit_and_die "Essential header db not found in incoming file."))
  else if !(f.headers.contains "table" || truthy cfg.args.table) then
    ([Event.openFile f.name],
      some (Fatal.crit_and_die "Essential header table not found in incoming file."))
  else if !(f.headers.contains "field" || truthy cfg.args.field) then
    ([Event.openFile f.name],
      some (Fatal.crit_and_die "Essential header field not found in incoming file."))
  else
    match construct_client_step cfg with
    | Except.error e => (Event.openFile f.name :: [Event.clientConstruct], some e)
    | Except.ok _ =>
      match row_loop lookup f.headers (override_dict cfg.args) f.rows 0 with
      | (evs, res) => (Event.openFile f.name :: Event.clientConstruct :: evs, res)

/-- Embeds the file loop itself: files are processed in order, and a `Fatal`
(`sys.exit` or an uncaught exception) while processing one file ends the whole
process, so no later file is touched. -/
def process_batch (lookup : String → SearchResult) (cfg : Config) :
    List CSVFile → List Event × Option Fatal
  | [] => ([], none)
  | f :: fs =>
    match process_file lookup cfg f with
    | (evs, some e) => (evs, some e)
    | (evs, none) =>
      match process_batch lookup cfg fs with
      | (evs2, res) => (evs ++ evs2, res)

/-- Helper: string concatenation is associative. -/
theorem str_append_assoc (a b c : String) : a ++ b ++ c = a ++ (b ++ c) := by
  cases a; cases b; cases c
  exact congrArg String.mk (List.append_assoc _ _ _)

/-- Helper: a string built by appending onto `"dm:" ++ d` keeps `"dm:"` as a
prefix. -/
theorem dm_prefix_of_appends (d x y z : String) :
    ∃ rest, ((("dm:" ++ d) ++ x) ++ y) ++ z = "dm:" ++ rest := by
  refine ⟨d ++ (x ++ (y ++ z)), ?_⟩
  rw [str_append_assoc, str_append_assoc, str_append_assoc]

/-- Claim C7: `make_null` sends `"NULL"`, `"null"`, `"NuLL"` (any casing of
`null`) and `""` to the same semantic-null result `none`, and sends every
other string to itself unchanged. -/
theorem c7_make_null_coercion :
    make_null "NULL" = none ∧ make_null "null" = none ∧ make_null "NuLL" = none ∧
    make_null "" = none ∧
    (∀ v : String, make_null v = none ↔ (py_upper v = "NULL" ∨ v = "")) ∧
    (∀ v : String, py_upper v ≠ "NULL" → v ≠ "" → make_null v = some v) := by
  refine ⟨by decide, by decide, by decide, by decide, ?_, ?_⟩
  · intro v
    unfold make_null
    by_cases h : py_upper v = "NULL" ∨ v = ""
    · rw [if_pos h]; simp [h]
    · rw [if_neg h]; simp [h]
  · intro v h1 h2
    unfold make_null
    rw [if_neg (by tauto)]

/-- Witness for C7 at the concrete input `"alice"`. -/
theorem c7_witness : make_null "alice" = some "alice" :=
  c7_make_null_coercion.2.2.2.2.2 "alice" (by decide) (by decide)

/-- Claim C8: the override merge (Python dict union with `override_dict` on
the right) is idempotent, and for each of the four hierarchy fields a present
override always wins over the file value. -/
theorem c8_override_merge :
    (∀ (d : String → Option (Option String)) (ov : String → Option String),
        dict_union (dict_union d ov) ov = dict_union d ov) ∧
    (∀ (d : String → Option (Option String)) (a : Args) (v : String),
        (a.db = some v → dict_union d (override_dict a) "db" = some (some v)) ∧
        (a.schema = some v → dict_union d (override_dict a) "schema" = some (some v)) ∧
        (a.table = some v → dict_union d (override_dict a) "table" = some (some v)) ∧
        (a.field = some v → dict_union d (override_dict a) "field" = some (some v))) := by
  constructor
  · intro d ov
    funext k
    cases h : ov k <;> simp [dict_union, h]
  · intro d a v
    refine ⟨?_, ?_, ?_, ?_⟩ <;> intro h <;> simp [dict_union, override_dict, h]

/-- Witness for C8: a concrete file value is replaced by a concrete override. -/
theorem c8_witness :
    dict_union (fun _ => some (some "filedb"))
        (override_dict ⟨some "ovdb", none, none, none⟩) "db" = some (some "ovdb") :=
  (c8_override_merge.2 (fun _ => some (some "filedb"))
    ⟨some "ovdb", none, none, none⟩ "ovdb").1 rfl

/-- Claim C9: `list_duplicates` computes `["db"]` on `["db","table","db"]` and
`[]` on `["db","table","field"]`, and a file whose header row has a duplicate
is rejected with the duplicate-header fatal regardless of its data rows,
before any row is processed (the outcome and trace do not depend on the
rows). -/
theorem c9_duplicate_headers :
    list_duplicates ["db", "table", "db"] = ["db"] ∧
    list_duplicates ["db", "table", "field"] = [] ∧
    (∀ (lookup : String → SearchResult) (cfg : Config) (name : String)
        (rows : List (List String)),
        process_file lookup cfg ⟨name, ["db", "table", "field", "db"], rows⟩
          = ([Event.openFile name],
             some (Fatal.crit_and_die
               "Duplicate vaules found in incoming file header row. Consider namespacing."))) := by
  refine ⟨by decide, by decide, ?_⟩
  intro lookup cfg name rows
  rfl

/-- Claim C10: override values are merged after the null-coercion pass, so an
override equal to `"null"` (any casing) or `""` survives literally in the
normalized row, while the same value supplied in the file is coerced to
semantic null. -/
theorem c10_override_bypasses_null :
    (∀ (d : String → Option (Option String)) (a : Args) (v : String),
        a.db = some v → dict_union d (override_dict a) "db" = some (some v)) ∧
    null_values (dict_zip ["db", "table", "field"] ["null", "t", "f"]) "db" = some none ∧
    dict_union (null_values (dict_zip ["db", "table", "field"] ["null", "t", "f"]))
        (override_dict ⟨some "null", none, none, none⟩) "db" = some (some "null") ∧
    dict_union (null_values (dict_zip ["db", "table", "field"] ["NuLL", "t", "f"]))
        (override_dict ⟨some "", none, none, none⟩) "db" = some (some "") := by
  refine ⟨?_, by decide, by decide, by decide⟩
  intro d a v h
  simp [dict_union, override_dict, h]

/-- Witness for C10: an override equal to the literal string `"null"` is kept. -/
theorem c10_witness :
    dict_union (fun _ => some (some "x"))
        (override_dict ⟨some "null", none, none, none⟩) "db" = some (some "null") :=
  c10_override_bypasses_null.1 (fun _ => some (some "x"))
    ⟨some "null", none, none, none⟩ "null" rfl

/-- Claim C1: the lookup dispatch yields exactly one of the five
`LookupOutcome` classifications for every search result, each outcome maps to
exactly one terminal action, and the finalised case (HTTP 200, exact match,
finalised model) classifies as `ResolvedFinalised` whose action is always
`CreateBranchThenUpdate` and never `UpdateInPlace`. -/
theorem c1_lookup_dispatch (s : SearchResult) :
    (∃! o : LookupOutcome, classify_search s = o) ∧
    (∀ o : LookupOutcome, ∃! a : TerminalAction, resolver_action o = a) ∧
    (s.status_code = 200 → s.url_found = true → s.model_finalised = true →
      classify_search s = LookupOutcome.ResolvedFinalised s.id_based_url) ∧
    (∀ ref, resolver_action (LookupOutcome.ResolvedFinalised ref)
        = TerminalAction.CreateBranchThenUpdate ref) ∧
    (∀ ref ref', resolver_action (LookupOutcome.ResolvedFinalised ref)
        ≠ TerminalAction.UpdateInPlace ref') := by
  refine ⟨⟨classify_search s, rfl, fun y hy => hy.symm⟩,
          fun o => ⟨resolver_action o, rfl, fun y hy => hy.symm⟩,
          ?_, fun ref => rfl, fun ref ref' => by simp [resolver_action]⟩
  intro h200 hf hfin
  simp [classify_search, h200, hf, hfin]

/-- Witness for C1 at a concrete finalised search result. -/
theorem c1_witness :
    classify_search ⟨200, true, true, "node-ref"⟩
        = LookupOutcome.ResolvedFinalised "node-ref" ∧
    resolver_action (LookupOutcome.ResolvedFinalised "node-ref")
        = TerminalAction.CreateBranchThenUpdate "node-ref" :=
  ⟨(c1_lookup_dispatch ⟨200, true, true, "node-ref"⟩).2.2.1 rfl rfl rfl,
   (c1_lookup_dispatch ⟨200, true, true, "node-ref"⟩).2.2.2.1 "node-ref"⟩

/-- Claim C2 (code bug): on the C2 scenario file (headers
`db,table,field,description,owner.name`, no schema column, no overrides) the
row processing does not succeed: the normalized row dictionary has no
`schema` key and the code reads `row_dict` at `schema` unguarded, raising
`KeyError`; with a `schema` column present and empty the intended path
`dm:Sales|dc:Orders|de:CustomerId` is produced. -/
theorem c2_missing_schema_key_error :
    process_row ["db", "table", "field", "description", "owner.name"]
        (override_dict no_args)
        ["Sales", "Orders", "CustomerId", "Customer identifier", "alice"]
      = Except.error (Fatal.uncaught (PyExc.keyError "schema")) ∧
    process_row ["db", "schema", "table", "field", "description", "owner.name"]
        (override_dict no_args)
        ["Sales", "", "Orders", "CustomerId", "Customer identifier", "alice"]
      = Except.ok "dm:Sales|dc:Orders|de:CustomerId" :=
  ⟨rfl, rfl⟩

/-- Counterexample to claim C3: in a two-file batch where the first file has
a duplicate header, the run ends at the first file's duplicate-header fatal
and the second file is never opened or processed. -/
theorem c3_counterexample :
    process_batch (fun _ => ⟨404, false, false, ""⟩)
        ⟨"http://h/api", "01234567-89ab-cdef-0123-456789abcdef", no_args⟩
        [⟨"a.csv", ["db", "table", "field", "db"], [["x", "y", "z", "w"]]⟩,
         ⟨"b.csv", ["db", "table", "field"], []⟩]
      = ([Event.openFile "a.csv"],
         some (Fatal.crit_and_die
           "Duplicate vaules found in incoming file header row. Consider namespacing.")) ∧
    Event.openFile "b.csv" ∉
      (process_batch (fun _ => ⟨404, false, false, ""⟩)
        ⟨"http://h/api", "01234567-89ab-cdef-0123-456789abcdef", no_args⟩
        [⟨"a.csv", ["db", "table", "field", "db"], [["x", "y", "z", "w"]]⟩,
         ⟨"b.csv", ["db", "table", "field"], []⟩]).1 :=
  ⟨rfl, by decide⟩

/-- Claim C3 as amended: a fatal error while processing a file (`crit_and_die`
and `err_and_die` call `sys.exit`, and uncaught exceptions propagate) ends the
whole run, so the remaining files of the batch are not processed at all. -/
theorem c3_fatal_aborts_batch (lookup : String → SearchResult) (cfg : Config)
    (f : CSVFile) (fs : List CSVFile) (e : Fatal)
    (h : (process_file lookup cfg f).2 = some e) :
    process_batch lookup cfg (f :: fs) = ((process_file lookup cfg f).1, some e) := by
  rcases hpf : process_file lookup cfg f with ⟨evs, out⟩
  rw [hpf] at h
  simp only at h
  subst h
  simp [process_batch, hpf]

/-- Witness for C3 as amended: a concrete one-file batch ending at the
duplicate-header fatal. -/
theorem c3_witness :
    process_batch (fun _ => ⟨404, false, false, ""⟩) ⟨"u", "k", no_args⟩
        [⟨"only.csv", ["db", "table", "db"], []⟩]
      = ([Event.openFile "only.csv"],
         some (Fatal.crit_and_die
           "Duplicate vaules found in incoming file header row. Consider namespacing.")) :=
  c3_fatal_aborts_batch (fun _ => ⟨404, false, false, ""⟩) ⟨"u", "k", no_args⟩
    ⟨"only.csv", ["db", "table", "db"], []⟩ [] _ rfl

/-- Counterexample to claim C4: with a badly formatted URL and key the first
input file is still opened and read (its open event is in the trace and its
headers are checked) before the client-construction step fails, so the run
does not abort before file-system I/O. -/
theorem c4_counterexample :
    process_file (fun _ => ⟨404, false, false, ""⟩)
        ⟨"not-a-url", "not-a-uuid", no_args⟩
        ⟨"first.csv", ["db", "table", "field"], [["d1", "t1", "f1"]]⟩
      = ([Event.openFile "first.csv", Event.clientConstruct],
         some (Fatal.uncaught (PyExc.typeError "expected string or bytes-like object"))) :=
  rfl

/-- Claim C4 as amended: the URL and key checks never precede file I/O — the
first event of every file's processing is opening that file; the
client-construction step (where the URL and key are validated) only comes
later, inside the per-file loop. -/
theorem c4_open_precedes_config_checks (lookup : String → SearchResult)
    (cfg : Config) (f : CSVFile) :
    (process_file lookup cfg f).1.head? = some (Event.openFile f.name) := by
  unfold process_file
  repeat' split
  all_goals rfl

/-- Counterexample to claim C5: a row whose `table` value normalizes to null
produces the path `dm:A|de:F`, which has a field segment (`de:` tag) and no
table segment (no `dc:` tag), violating contiguity. -/
theorem c5_counterexample :
    process_row ["db", "schema", "table", "field"] (override_dict no_args)
        ["A", "null", "null", "F"]
      = Except.ok "dm:A|de:F" ∧
    path_has_tag "dm:A|de:F" "de:" = true ∧
    path_has_tag "dm:A|de:F" "dc:" = false :=
  ⟨rfl, by decide, by decide⟩

/-- Claim C5 as amended: every successfully serialized path begins with the
`dm:` database segment (so no segment ever appears without `db`), but a field
segment can appear without a table segment when `table` is null. -/
theorem c5_path_begins_with_db (rd : String → Option (Option String)) (p : String)
    (h : path_string rd = Except.ok p) : ∃ rest, p = "dm:" ++ rest := by
  unfold path_string at h
  split at h
  · exact Except.noConfusion h
  · exact Except.noConfusion h
  · split at h
    · exact Except.noConfusion h
    · split at h
      · exact Except.noConfusion h
      · split at h
        · exact Except.noConfusion h
        · injection h with h'
          rw [← h']
          exact dm_prefix_of_appends _ _ _ _

/-- Witness for C5 as amended at a concrete row dictionary. -/
theorem c5_witness : ∃ rest, "dm:A" = "dm:" ++ rest :=
  c5_path_begins_with_db
    (fun k => if k = "db" then some (some "A") else some none) "dm:A" rfl

/-- Claim C6 (code bug): the `MauroAPIInterface` constructor, given string
arguments, succeeds exactly when the URL matches the API-root pattern and the
key matches the case-insensitive UUID pattern; but the orchestrator's
client-construction step passes the logger object as the URL argument (and
the URL string as the key), so the pattern check raises an uncaught
`TypeError` and the step fails even for a well-formed URL and key. -/
theorem c6_client_construction :
    construct_client_step
        ⟨"http://localhost:8082/api", "01234567-89ab-cdef-0123-456789abcdef", no_args⟩
      = Except.error (Fatal.uncaught (PyExc.typeError "expected string or bytes-like object")) ∧
    mk_MauroAPIInterface (some (PyVal.str "http://localhost:8082/api"))
        (some (PyVal.str "01234567-89ab-cdef-0123-456789abcdef"))
      = Except.ok ⟨some (PyVal.str "http://localhost:8082/api"),
          some (PyVal.str "01234567-89ab-cdef-0123-456789abcdef")⟩ ∧
    (∀ u k : String,
      (∃ c, mk_MauroAPIInterface (some (PyVal.str u)) (some (PyVal.str k)) = Except.ok c)
        ↔ (is_good_api_url u = true ∧ is_good_api_key k = true)) := by
  refine ⟨rfl, rfl, ?_⟩
  intro u k
  constructor
  · rintro ⟨c, hc⟩
    by_cases hu : is_good_api_url u = true
    · by_cases hk : is_good_api_key k = true
      · exact ⟨hu, hk⟩
      · simp [mk_MauroAPIInterface, set_api_base_url, set_api_key_value, hu, hk] at hc
    · simp [mk_MauroAPIInterface, set_api_base_url, hu] at hc
  · rintro ⟨hu, hk⟩
    exact ⟨⟨some (PyVal.str u), some (PyVal.str k)⟩,
      by simp [mk_MauroAPIInterface, set_api_base_url, set_api_key_value, hu, hk]⟩
